import Mathlib

/-!
Shallow embedding of `src/libaugrim/src/error/internal.rs` (the `InternalError`
type of the augrim crate) and proofs of the specified properties of its
construction, Display rendering, Debug rendering, `reduce_to_string`
conversion and causal-chain accessor.
-/

namespace Augrim

/-- Models a boxed dynamic error value (`Box<dyn std::error::Error>`), as
observed by `InternalError`: the code only ever uses the cause's Display
rendering (`"{}"`), its Debug rendering (`"{:?}"`), and returns the object
itself from the `source()` accessor.  We therefore model it as a pair of its
two renderings; equality of `Cause` values models object identity. -/
structure Cause where
  display : String
  debugRepr : String
  deriving DecidableEq, Repr

/-- Models the private Rust struct `Source { prefix: Option<String>,
source: Box<dyn error::Error> }`.  The Rust field named `prefix` is called
`pfx` here because `prefix` is a reserved word in Lean. -/
structure Source where
  pfx : Option String
  source : Cause
  deriving DecidableEq, Repr

/-- Models `pub struct InternalError { message: Option<String>,
source: Option<Source> }`. -/
structure InternalError where
  message : Option String
  source : Option Source
  deriving DecidableEq, Repr

/-- Models `InternalError::from_source`. -/
def InternalError.from_source (source : Cause) : InternalError :=
  { message := none, source := some { pfx := none, source := source } }

/-- Models `InternalError::from_source_with_message`. -/
def InternalError.from_source_with_message (source : Cause) (message : String) :
    InternalError :=
  { message := some message, source := some { pfx := none, source := source } }

/-- Models `InternalError::from_source_with_prefix` (second argument is the
Rust `prefix` parameter). -/
def InternalError.from_source_with_prefix (source : Cause) (p : String) :
    InternalError :=
  { message := none, source := some { pfx := some p, source := source } }

/-- Models `InternalError::with_message`. -/
def InternalError.with_message (message : String) : InternalError :=
  { message := some message, source := none }

/-- The value of `std::any::type_name::<InternalError>()`: the fully
qualified name of the type in the augrim crate. -/
def internalErrorTypeName : String := "augrim::error::internal::InternalError"

/-- Models `impl fmt::Display for InternalError`: match on message, then on
source, then on the source's prefix; the fallback is the type's own name. -/
def InternalError.display (e : InternalError) : String :=
  match e.message with
  | some m => m
  | none =>
    match e.source with
    | some s =>
      match s.pfx with
      | some p => p ++ (": ") ++ s.source.display
      | none => s.source.display
    | none => internalErrorTypeName

/-- Models Rust's escaping of a single character inside a `Debug`-rendered
string literal (`char::escape_debug`), for the escapes exercised here:
quote, backslash, newline, tab and carriage return; all other characters
render as themselves. -/
def rustCharEscapeDebug (c : Char) : String :=
  if c = '\"' then "\\\""
  else if c = '\\' then "\\\\"
  else if c = '\n' then "\\n"
  else if c = '\t' then "\\t"
  else if c = '\r' then "\\r"
  else String.singleton c

/-- Models Rust's `impl Debug for String`: the text, character-escaped, in
double quotes. -/
def rustDebugString (s : String) : String :=
  ("\"") ++ String.join (s.data.map rustCharEscapeDebug) ++ ("\"")

/-- Models the standard library's `std::fmt::DebugStruct` builder at the
observable level: a type name plus the ordered list of (field name,
rendered field value) pairs added so far. -/
structure DebugStruct where
  name : String
  fields : List (String × String)
  deriving DecidableEq, Repr

/-- Models `DebugStruct::field`: appends one (name, rendered value) pair. -/
def DebugStruct.field (d : DebugStruct) (k v : String) : DebugStruct :=
  { name := d.name, fields := d.fields ++ [(k, v)] }

/-- Models `DebugStruct::finish` in non-alternate mode: with no fields the
output is just the type name; otherwise the conventional record rendering
`Name \x7b k1: v1, k2: v2 \x7d`, comma-separated. -/
def DebugStruct.finish (d : DebugStruct) : String :=
  if d.fields.isEmpty then d.name
  else
    d.name ++ (" \x7b ")
      ++ String.intercalate (", ") (d.fields.map fun f => f.1 ++ (": ") ++ f.2)
      ++ (" \x7d")

/-- Models the body of `impl fmt::Debug for InternalError` up to (but not
including) `finish()`: start from `f.debug_struct("InternalError")`, add the
`message` field if the message is present, then, if a source is present, add
its `prefix` field when set followed by the `source` field. -/
def InternalError.debugBuild (e : InternalError) : DebugStruct :=
  let d0 : DebugStruct := { name := "InternalError", fields := [] }
  let d1 :=
    match e.message with
    | some message => d0.field ("message") (rustDebugString message)
    | none => d0
  match e.source with
  | some s =>
    let d2 :=
      match s.pfx with
      | some p => d1.field ("prefix") (rustDebugString p)
      | none => d1
    d2.field ("source") s.source.debugRepr
  | none => d1

/-- Models `impl fmt::Debug for InternalError`: the builder's final
rendering. -/
def InternalError.debugFmt (e : InternalError) : String :=
  e.debugBuild.finish

/-- Models `InternalError::reduce_to_string`.  The diagnostic sink (the
`debug!` logging macro) is modelled explicitly: the first component is the
ordered list of texts emitted to the sink, the second is the returned
string.  The code emits the Debug rendering exactly when a source is
present, and returns `self.to_string()`, i.e. the Display rendering. -/
def InternalError.reduce_to_string (e : InternalError) : List String × String :=
  (if e.source.isSome then [e.debugFmt] else [], e.display)

/-- Models `impl error::Error for InternalError`, method `source()`: the
standard "get underlying cause" accessor. -/
def InternalError.errorSource (e : InternalError) : Option Cause :=
  match e.source with
  | some s => some s.source
  | none => none

/-- Spec-side description of the Debug field list (from spec section 4.3):
the `message` field iff the message is set, then the `prefix` field iff a
causal info with a set prefix is present, then the `source` field iff causal
info is present; string values quoted. -/
def debugFieldsSpec (e : InternalError) : List (String × String) :=
  (match e.message with
   | some m => [(("message"), rustDebugString m)]
   | none => [])
  ++ (match e.source with
      | some s =>
        (match s.pfx with
         | some p => [(("prefix"), rustDebugString p)]
         | none => [])
        ++ [(("source"), s.source.debugRepr)]
      | none => [])

/-- Spec-side record rendering (from spec section 4.3): the conventional
`TypeName \x7b field1: value1, field2: value2 \x7d` notation,
comma-separated; with no fields, just the type name. -/
def renderRecord (name : String) (fields : List (String × String)) : String :=
  if fields.isEmpty then name
  else
    name ++ (" \x7b ")
      ++ String.intercalate (", ") (fields.map fun f => f.1 ++ (": ") ++ f.2)
      ++ (" \x7d")

/-- Decides whether a state is in one of the four publicly constructible
shapes: message only; cause only; cause and message; cause and prefix. -/
def inFourShapes (e : InternalError) : Bool :=
  match e.message, e.source with
  | some _, none => true
  | none, none => false
  | some _, some s => s.pfx.isNone
  | none, some _ => true

/-- The names of the fields appearing in the Debug rendering, in order. -/
def InternalError.debugFieldNames (e : InternalError) : List String :=
  e.debugBuild.fields.map Prod.fst

end Augrim

namespace Augrim

/-- C1: for every InternalError state whose message is set to m, the Display
rendering returns m verbatim, regardless of the causal info; in particular
`from_source_with_message(e, m)` and `with_message(m)` both display as m. -/
theorem c1_display_message_precedence (e : InternalError) (m : String)
    (h : e.message = some m) :
    e.display = m
      ∧ (∀ c : Cause, (InternalError.from_source_with_message c m).display = m)
      ∧ (InternalError.with_message m).display = m := by
  refine ⟨?_, fun c => rfl, rfl⟩
  simp [InternalError.display, h]

/-- Witness for C1 at the concrete state `with_message("w")`. -/
theorem c1_display_message_precedence_witness :
    (InternalError.with_message ("w")).message = some ("w")
      ∧ ((InternalError.with_message ("w")).display = "w"
          ∧ (∀ c : Cause,
              (InternalError.from_source_with_message c ("w")).display = "w")
          ∧ (InternalError.with_message ("w")).display = "w") :=
  ⟨rfl, c1_display_message_precedence (InternalError.with_message ("w")) ("w") rfl⟩

/-- C2: for every cause c, `from_source(c)` displays exactly as c itself
displays: the wrapper is a pure passthrough. -/
theorem c2_from_source_display_passthrough (c : Cause) :
    (InternalError.from_source c).display = c.display := rfl

/-- C3: for every cause c and string p, `from_source_with_prefix(c, p)`
displays as p, then a colon and a space, then c's own display. -/
theorem c3_from_source_with_prefix_display (c : Cause) (p : String) :
    (InternalError.from_source_with_prefix c p).display = p ++ (": ") ++ c.display := rfl

/-- C4: for every InternalError state, the Debug rendering is exactly the
record notation over the field list message (iff set), then prefix (iff the
causal info is present with its prefix set), then source (iff causal info is
present), with string values quoted; and `with_message("oops")` debugs to
the exact record text. -/
theorem c4_debug_record_rendering :
    (∀ e : InternalError,
        e.debugFmt = renderRecord ("InternalError") (debugFieldsSpec e))
      ∧ (InternalError.with_message ("oops")).debugFmt
          = "InternalError \x7b message: \"oops\" \x7d" := by
  constructor
  · intro e
    rcases e with ⟨msg, src⟩
    rcases src with _ | ⟨px, c⟩
    · rcases msg with _ | m <;> rfl
    · rcases px with _ | p <;> rcases msg with _ | m <;> rfl
  · rfl

/-- C5: for every InternalError with causal info present, `reduce_to_string`
emits exactly one text to the diagnostic sink, equal to the Debug rendering,
and returns exactly the Display rendering. -/
theorem c5_reduce_with_cause (e : InternalError) (h : e.source.isSome = true) :
    e.reduce_to_string = ([e.debugFmt], e.display) := by
  simp [InternalError.reduce_to_string, h]

/-- Witness for C5 at the concrete state `from_source(⟨"x", "X"⟩)`. -/
theorem c5_reduce_with_cause_witness :
    (InternalError.from_source ⟨"x", "X"⟩).source.isSome = true
      ∧ (InternalError.from_source ⟨"x", "X"⟩).reduce_to_string
          = ([(InternalError.from_source ⟨"x", "X"⟩).debugFmt],
              (InternalError.from_source ⟨"x", "X"⟩).display) :=
  ⟨rfl, c5_reduce_with_cause (InternalError.from_source ⟨"x", "X"⟩) rfl⟩

/-- C6: for every InternalError without causal info, `reduce_to_string`
emits nothing to the diagnostic sink and returns exactly the Display
rendering. -/
theorem c6_reduce_without_cause (e : InternalError) (h : e.source = none) :
    e.reduce_to_string = ([], e.display) := by
  simp [InternalError.reduce_to_string, h]

/-- Witness for C6 at the concrete state `with_message("w")`. -/
theorem c6_reduce_without_cause_witness :
    (InternalError.with_message ("w")).source = none
      ∧ (InternalError.with_message ("w")).reduce_to_string
          = ([], (InternalError.with_message ("w")).display) :=
  ⟨rfl, c6_reduce_without_cause (InternalError.with_message ("w")) rfl⟩

/-- C7: the standard "get underlying cause" accessor returns exactly the
wrapped cause object whenever causal info is present (never the prefix, and
regardless of message or prefix), and returns nothing when no cause is
wrapped. -/
theorem c7_error_source_accessor (m px : Option String) (c : Cause) :
    (InternalError.mk m (some (Source.mk px c))).errorSource = some c
      ∧ (InternalError.mk m none).errorSource = none :=
  ⟨rfl, rfl⟩

/-- C8: for the state with neither message nor causal info set, the Display
rendering is the type's own fully qualified name. -/
theorem c8_display_fallback_type_name :
    (InternalError.mk none none).display = internalErrorTypeName := rfl

/-- C9: each public constructor populates exactly the specified fields;
every publicly constructed value is in one of the four shapes; no public
constructor sets both message and prefix, nor neither field; the string
arguments are not validated (the empty string is accepted). -/
theorem c9_constructor_shapes (c : Cause) (m p : String) :
    InternalError.from_source c
        = InternalError.mk none (some (Source.mk none c))
      ∧ InternalError.from_source_with_message c m
          = InternalError.mk (some m) (some (Source.mk none c))
      ∧ InternalError.from_source_with_prefix c p
          = InternalError.mk none (some (Source.mk (some p) c))
      ∧ InternalError.with_message m = InternalError.mk (some m) none
      ∧ inFourShapes (InternalError.from_source c) = true
      ∧ inFourShapes (InternalError.from_source_with_message c m) = true
      ∧ inFourShapes (InternalError.from_source_with_prefix c p) = true
      ∧ inFourShapes (InternalError.with_message m) = true
      ∧ InternalError.with_message ("") = InternalError.mk (some ("")) none
      ∧ InternalError.from_source_with_prefix c ("")
          = InternalError.mk none (some (Source.mk (some ("")) c)) :=
  ⟨rfl, rfl, rfl, rfl, rfl, rfl, rfl, rfl, rfl, rfl⟩

/-- C10: in every InternalError state, including those unreachable through
the public constructors, the Debug rendering never contains a prefix field
without a source field: the prefix is only emitted from inside the causal
info, which also always emits the source field. -/
theorem c10_debug_prefix_implies_source (e : InternalError)
    (h : ("prefix") ∈ e.debugFieldNames) : ("source") ∈ e.debugFieldNames := by
  rcases e with ⟨msg, src⟩
  rcases src with _ | ⟨px, c⟩
  · rcases msg with _ | m <;>
      simp [InternalError.debugFieldNames, InternalError.debugBuild,
        DebugStruct.field] at h
  · rcases px with _ | p <;> rcases msg with _ | m <;>
      simp [InternalError.debugFieldNames, InternalError.debugBuild,
        DebugStruct.field]

/-- Witness for C10 at the concrete state
`from_source_with_prefix(⟨"x", "X"⟩, "p")`. -/
theorem c10_debug_prefix_implies_source_witness :
    ("prefix") ∈ (InternalError.from_source_with_prefix ⟨"x", "X"⟩ ("p")).debugFieldNames
      ∧ ("source") ∈ (InternalError.from_source_with_prefix ⟨"x", "X"⟩ ("p")).debugFieldNames :=
  ⟨by simp [InternalError.debugFieldNames, InternalError.debugBuild,
      InternalError.from_source_with_prefix, DebugStruct.field],
    c10_debug_prefix_implies_source
      (InternalError.from_source_with_prefix ⟨"x", "X"⟩ ("p"))
      (by simp [InternalError.debugFieldNames, InternalError.debugBuild,
        InternalError.from_source_with_prefix, DebugStruct.field])⟩

end Augrim
